import Mathlib

/-!
Shallow embedding of the Dimag learning pipeline
(`src/extension/src/learning/capture.ts`, `src/extension/src/learning/sync.ts`,
`src/extension/src/brain/pattern-matcher.ts`).

JavaScript numbers are modelled as `ℚ` (all arithmetic in these files is exact
on small rationals), JS string operations by Lean `String` operations, fallible
effectful steps (fs / git / network) by `Except String` values supplied through
explicit environment records, and mutable object state by explicit state
passing.  JS truthiness is modelled where the source relies on it (empty
strings and the number 0 are falsy, arrays are always truthy).
-/

namespace Dimag

/-- `hay.includes(needle)` on JS strings: `needle` occurs as a contiguous
substring of `hay`. -/
def strContains (hay needle : String) : Bool :=
  hay.data.tails.any (fun t => needle.data.isPrefixOf t)

/-- JS truthiness of an optional string field: present and non-empty. -/
def strTruthy : Option String → Bool
  | none => false
  | some s => !(s == "")

/-- Keys of a JS object built by repeated `acc[k] = …`: first-occurrence order,
each key once.  Also the element list of `new Set(l)`. -/
def dedupKeysAux (seen : List String) : List String → List String
  | [] => []
  | x :: xs =>
    if seen.contains x then dedupKeysAux seen xs
    else x :: dedupKeysAux (x :: seen) xs

def dedupKeys (l : List String) : List String :=
  dedupKeysAux [] l

/-- `new Set(l).size`. -/
def setSize (l : List String) : Nat :=
  (dedupKeys l).length

/-- `[...new Set(l1)].filter(t => new Set(l2).has(t)).length`. -/
def interCount (l1 l2 : List String) : Nat :=
  ((dedupKeys l1).filter (fun t => l2.contains t)).length

/-- `new Set([...l1, ...l2]).size`. -/
def unionSize (l1 l2 : List String) : Nat :=
  setSize (l1 ++ l2)

/-- Insertion sort of strings, `array.sort()` on string arrays. -/
def insertStr (s : String) : List String → List String
  | [] => [s]
  | x :: xs => if s ≤ x then s :: x :: xs else x :: insertStr s xs

def sortStrings : List String → List String
  | [] => []
  | x :: xs => insertStr x (sortStrings xs)

/-! ## Data model of `capture.ts` -/

inductive EventType
  | DECISION | CORRECTION | APPROVAL | REJECTION
deriving DecidableEq, Repr

inductive UserActionType
  | APPROVED | REJECTED | MODIFIED
deriving DecidableEq, Repr

/-- `LearningEvent.context` (the open-map extras beyond the three fields the
pipeline reads are never consumed by the embedded code and are omitted). -/
structure EventContext where
  projectType : Option String := none
  technologies : Option (List String) := none
  problemType : Option String := none
deriving DecidableEq, Repr

structure AiAction where
  type : String
  suggestion : String
  confidence : ℚ
  approach : Option String := none
  reasoning : Option String := none
deriving DecidableEq, Repr

structure UserAction where
  type : UserActionType
  modification : Option String := none
deriving DecidableEq, Repr

/-- `LearningEvent.outcome` (the opaque `metrics` payload is never read by the
embedded code and is omitted). -/
structure EventOutcome where
  success : Bool
deriving DecidableEq, Repr

structure LearningEvent where
  type : EventType
  timestamp : String
  context : EventContext
  aiAction : AiAction
  userAction : UserAction
  outcome : Option EventOutcome := none
deriving DecidableEq, Repr

/-- Common context produced by `extractCommonContext`: `technologies` is always
assigned (so, as a JS array, always truthy), the other two fields only when
shared by every group member. -/
structure CommonContext where
  projectType : Option String := none
  technologies : List String := []
  problemType : Option String := none
deriving DecidableEq, Repr

/-- Solution object produced by `extractCommonSolution`.  `requiredTechnologies`
is never set by the extractor but is read by the matcher's applicability
computation on store-loaded patterns, so it is carried as an optional field. -/
structure Solution where
  approach : Option String := none
  averageConfidence : ℚ := 0
  suggestions : List String := []
  requiredTechnologies : Option (List String) := none
deriving DecidableEq, Repr

structure PatternBody where
  context : CommonContext
  solution : Solution
  confidence : ℚ
deriving DecidableEq, Repr

structure PatternMetadata where
  createdAt : String
  usageCount : Nat
  successRate : ℚ
deriving DecidableEq, Repr

structure ExtractedPattern where
  id : String
  category : String
  pattern : PatternBody
  metadata : PatternMetadata
deriving DecidableEq, Repr

/-- The two timestamp reads performed during pattern creation
(`new Date().toISOString()` and `Date.now().toString(36)`). -/
structure Clock where
  isoNow : String
  base36Now : String
deriving DecidableEq, Repr

/-! ## `capture.ts`: similarity grouping -/

/-- `LearningCapture.isSimilarContext`. -/
def isSimilarContext (c1 c2 : EventContext) : Bool :=
  if strTruthy c1.projectType && strTruthy c2.projectType
      && (c1.projectType == c2.projectType) then
    true
  else if (match c1.technologies, c2.technologies with
      | some t1, some t2 =>
        decide ((interCount t1 t2 : ℚ) / (unionSize t1 t2 : ℚ) ≥ 1/2)
      | _, _ => false) then
    true
  else
    strTruthy c1.problemType && strTruthy c2.problemType
      && (c1.problemType == c2.problemType)

/-- One step of `groupSimilarEvents`' loop body: append `e` to the first group
whose representative (first element) has a similar context, else start a new
group at the end. -/
def addToGroups (groups : List (List LearningEvent)) (e : LearningEvent) :
    List (List LearningEvent) :=
  match groups with
  | [] => [[e]]
  | g :: rest =>
    match g.head? with
    | some first =>
      if isSimilarContext first.context e.context then (g ++ [e]) :: rest
      else g :: addToGroups rest e
    | none => g :: addToGroups rest e

/-- `LearningCapture.groupSimilarEvents`. -/
def groupSimilarEvents (events : List LearningEvent) :
    List (List LearningEvent) :=
  events.foldl addToGroups []

/-! ## `capture.ts`: pattern synthesis -/

def isApproved (e : LearningEvent) : Bool :=
  e.userAction.type == .APPROVED

/-- `e.outcome?.success !== false`. -/
def outcomeNotFailed (e : LearningEvent) : Bool :=
  match e.outcome with
  | some o => o.success
  | none => true

/-- `LearningCapture.extractCommonContext`. -/
def extractCommonContext (contexts : List EventContext) : CommonContext :=
  let projectTypes :=
    (contexts.filterMap (fun c => c.projectType)).filter (fun s => !(s == ""))
  let commonProject : Option String :=
    match projectTypes with
    | [] => none
    | t :: rest => if rest.all (fun x => x == t) then some t else none
  let allTechs := (contexts.map (fun c => c.technologies.getD [])).flatten
  let commonTechs :=
    (dedupKeys allTechs).filter
      (fun t => decide ((allTechs.count t : ℚ) ≥ (contexts.length : ℚ) * (1/2)))
  let problemTypes :=
    (contexts.filterMap (fun c => c.problemType)).filter (fun s => !(s == ""))
  let commonProblem : Option String :=
    match problemTypes with
    | [] => none
    | t :: rest => if rest.all (fun x => x == t) then some t else none
  { projectType := commonProject
    technologies := commonTechs
    problemType := commonProblem }

/-- Key of maximal count, first occurrence winning ties: the head of
`Object.entries(counts).sort((a, b) => b[1] - a[1])` for counts built in
first-occurrence key order (JS sort is stable). -/
def mostFrequent (l : List String) : Option String :=
  match dedupKeys l with
  | [] => none
  | k :: ks =>
    some (ks.foldl (fun best cand => if l.count cand > l.count best then cand else best) k)

/-- `LearningCapture.extractCommonSolution`. -/
def extractCommonSolution (actions : List AiAction) : Solution :=
  let approaches := (actions.filterMap (fun a => a.approach)).filter (fun s => !(s == ""))
  { approach := mostFrequent approaches
    averageConfidence :=
      (actions.map (fun a => a.confidence)).sum / (actions.length : ℚ)
    suggestions := actions.map (fun a => a.suggestion)
    requiredTechnologies := none }

/-- Character class kept by `replace(/[^a-z0-9_-]/g, '')`. -/
def keepIdChar (c : Char) : Bool :=
  ('a' ≤ c && c ≤ 'z') || ('0' ≤ c && c ≤ '9') || c == '_' || c == '-'

/-- `context.projectType || 'unknown'` (empty string is falsy). -/
def orUnknown : Option String → String
  | none => "unknown"
  | some s => if s == "" then "unknown" else s

/-- `LearningCapture.generatePatternId` with the `Date.now().toString(36)`
suffix supplied by the clock. -/
def generatePatternId (clock : Clock) (ctx : CommonContext) : String :=
  let parts := [orUnknown ctx.projectType,
                orUnknown ctx.problemType,
                String.intercalate "-" (sortStrings ctx.technologies)]
  let base :=
    String.mk (((String.intercalate "_" parts).toLower).data.filter keepIdChar)
  base ++ "_" ++ clock.base36Now

/-- `LearningCapture.categorizePattern`.  The final `general` branch of the
source is unreachable for extractor-produced contexts because
`context.technologies` is always an array there and arrays are truthy in JS. -/
def categorizePattern (ctx : CommonContext) : String :=
  let pt := ctx.problemType.getD ""
  if strContains pt "deployment" then "deployment"
  else if strContains pt "error" then "debugging"
  else if strContains pt "architecture" then "architectural"
  else if strContains pt "performance" then "performance"
  else "techStack"

/-- `LearningCapture.createPattern`. -/
def createPattern (clock : Clock) (group : List LearningEvent) :
    Option ExtractedPattern :=
  let approvals := group.filter isApproved
  if approvals.length == 0 then none
  else
    let successCount :=
      (group.filter (fun e => outcomeNotFailed e && isApproved e)).length
    let successRate := (successCount : ℚ) / (group.length : ℚ)
    let commonContext := extractCommonContext (group.map (fun e => e.context))
    let commonSolution := extractCommonSolution (approvals.map (fun e => e.aiAction))
    some
      { id := generatePatternId clock commonContext
        category := categorizePattern commonContext
        pattern :=
          { context := commonContext
            solution := commonSolution
            confidence := successRate }
        metadata :=
          { createdAt := clock.isoNow
            usageCount := group.length
            successRate := successRate } }

/-- `LearningCapture.extractPatterns` over an explicit queue. -/
def extractPatterns (clock : Clock) (queue : List LearningEvent) :
    List ExtractedPattern :=
  (groupSimilarEvents queue).filterMap (fun group =>
    if (group.filter isApproved).length < 2 then none
    else createPattern clock group)

/-! ## `capture.ts`: queue state machine

`triggerCommit` / `captureDecision` with the mutable queue, the workspace
configuration reads, and the user's answer to the consent prompt made explicit.
The UI notifications, the `globalState` hand-off of extracted patterns and the
`dimag.commitLearnings` command dispatch have no effect on the queue and are
not modelled.  The returned boolean records whether `extractPatterns` ran
(an "extraction attempt"). -/

structure CaptureConfig where
  learningEnabled : Bool
  autoCommit : Bool
  userAcceptsPrompt : Bool
deriving DecidableEq, Repr

def COMMIT_THRESHOLD : Nat := 10

/-- `LearningCapture.triggerCommit`: queue after the call, paired with whether
an extraction attempt happened. -/
def triggerCommit (cfg : CaptureConfig) (clock : Clock)
    (queue : List LearningEvent) : List LearningEvent × Bool :=
  if cfg.autoCommit = false && cfg.userAcceptsPrompt = false then
    (queue, false)
  else
    let patterns := extractPatterns clock queue
    if patterns.isEmpty then (queue, true)
    else ([], true)

/-- `LearningCapture.captureDecision`: queue after the call, paired with
whether an extraction attempt happened. -/
def captureDecision (cfg : CaptureConfig) (clock : Clock)
    (queue : List LearningEvent) (e : LearningEvent) :
    List LearningEvent × Bool :=
  if cfg.learningEnabled = false then (queue, false)
  else
    let queue' := queue ++ [e]
    if COMMIT_THRESHOLD ≤ queue'.length then triggerCommit cfg clock queue'
    else (queue', false)

/-- A sequence of `captureDecision` calls from a starting queue, counting
extraction attempts. -/
def runCaptures (cfg : CaptureConfig) (clock : Clock)
    (events : List LearningEvent) : List LearningEvent × Nat :=
  events.foldl
    (fun st e =>
      let r := captureDecision cfg clock st.1 e
      (r.1, st.2 + (if r.2 then 1 else 0)))
    ([], 0)

/-! ## `pattern-matcher.ts` -/

/-- Result of `scorePattern` (the human-readable `reasoning` log string is
pure presentation and is not modelled). -/
structure PatternMatch where
  pattern : ExtractedPattern
  confidence : ℚ
  applicability : ℚ
deriving DecidableEq, Repr

def problemCategories : List (List String) :=
  [["deployment", "deploy", "hosting", "production"],
   ["error", "bug", "exception", "crash"],
   ["performance", "slow", "optimization"],
   ["architecture", "design", "structure"],
   ["testing", "test", "qa"]]

/-- `PatternMatcher.areSimilarProblemTypes`. -/
def areSimilarProblemTypes (type1 type2 : String) : Bool :=
  let t1 := type1.toLower
  let t2 := type2.toLower
  if t1 == t2 then true
  else
    problemCategories.any (fun cat =>
      cat.any (fun k => strContains t1 k) && cat.any (fun k => strContains t2 k))

/-- Technology component of `scorePattern` (lines 84-94): the pattern-side
technology array is always truthy, the live side may be absent.  Note the
denominator is the larger of the two set sizes, not the union size. -/
def techScore (patternTechs : List String) (projTechs : Option (List String)) : ℚ :=
  match projTechs with
  | none => 0
  | some ct =>
    let inter := interCount patternTechs ct
    let maxSize := max (setSize patternTechs) (setSize ct)
    let frac := (inter : ℚ) / (maxSize : ℚ)
    if frac > 0 then frac * (4/10) else 0

/-- The Jaccard overlap of two technology sets as the spec's glossary defines
it: intersection size divided by union size.  Modelled from the spec's words
for comparison with `techScore`; it is not a function of the source. -/
def jaccardOverlap (l1 l2 : List String) : ℚ :=
  (interCount l1 l2 : ℚ) / (unionSize l1 l2 : ℚ)

/-- `PatternMatcher.calculateApplicability`. -/
def calculateApplicability (p : ExtractedPattern) (ctx : EventContext) : ℚ :=
  let base : ℚ := 5/10
  let s1 :=
    match p.pattern.solution.requiredTechnologies with
    | none => base
    | some req =>
      let available := ctx.technologies.getD []
      if (dedupKeys req).all (fun t => available.contains t) then 9/10 else 3/10
  if p.metadata.successRate == 0 then s1
  else s1 * (6/10) + p.metadata.successRate * (4/10)

/-- `PatternMatcher.scorePattern`. -/
def scorePattern (p : ExtractedPattern) (intent : String) (ctx : EventContext) :
    PatternMatch :=
  let s1 : ℚ :=
    if strTruthy p.pattern.context.projectType && strTruthy ctx.projectType
        && (p.pattern.context.projectType == ctx.projectType) then 3/10 else 0
  let s2 : ℚ := s1 + techScore p.pattern.context.technologies ctx.technologies
  let s3 : ℚ := s2 +
    (if strTruthy p.pattern.context.problemType && strTruthy ctx.problemType
        && areSimilarProblemTypes (p.pattern.context.problemType.getD "")
            (ctx.problemType.getD "") then 2/10 else 0)
  let s4 : ℚ := s3 +
    (if strTruthy p.pattern.solution.approach
        && (strContains intent.toLower ((p.pattern.solution.approach.getD "").toLower)
            || strContains ((p.pattern.solution.approach.getD "").toLower) intent.toLower)
     then 1/10 else 0)
  let historical : ℚ :=
    if p.pattern.confidence == 0 then 5/10 else p.pattern.confidence
  let score := s4 * (7/10) + historical * (3/10)
  { pattern := p
    confidence := min score 1
    applicability := calculateApplicability p ctx }

/-- `matches.sort((a, b) => b.confidence - a.confidence)`: stable descending
insertion sort on the confidence key. -/
def insertMatchDesc (m : PatternMatch) : List PatternMatch → List PatternMatch
  | [] => [m]
  | x :: xs =>
    if m.confidence > x.confidence then m :: x :: xs else x :: insertMatchDesc m xs

def sortMatchesDesc : List PatternMatch → List PatternMatch
  | [] => []
  | x :: xs => insertMatchDesc x (sortMatchesDesc xs)

/-- `PatternMatcher.findMatch` with the pattern list and the live project
context made explicit (the source reads patterns through `getPatterns` and
falls back to `detectProjectContext()` when no context is passed). -/
def findMatch (patterns : List ExtractedPattern) (intent : String)
    (ctx : EventContext) : Option PatternMatch :=
  if patterns.isEmpty then none
  else
    let ms := sortMatchesDesc
      ((patterns.map (fun p => scorePattern p intent ctx)).filter
        (fun m => decide (m.confidence > 6/10)))
    ms.head?

/-- `PatternMatcher.findAllMatches`. -/
def findAllMatches (patterns : List ExtractedPattern) (intent : String)
    (ctx : EventContext) : List PatternMatch :=
  if patterns.isEmpty then []
  else
    sortMatchesDesc
      ((patterns.map (fun p => scorePattern p intent ctx)).filter
        (fun m => decide (m.confidence > 5/10)))

/-! ## `pattern-matcher.ts`: TTL cache -/

def CACHE_TTL : Nat := 30 * 60 * 1000

/-- Mutable fields `cachedPatterns` / `cacheExpiry` of `PatternMatcher`;
times are epoch milliseconds. -/
structure MatcherCache where
  cachedPatterns : List ExtractedPattern
  cacheExpiry : Nat
deriving DecidableEq, Repr

structure GetPatternsResult where
  patterns : List ExtractedPattern
  state : MatcherCache
  loadedFromStore : Bool
deriving DecidableEq, Repr

/-- `PatternMatcher.getPatterns` as a state transition: `now` is `Date.now()`
and `loadResult` is what `learningSync.loadAllPatterns()` would return.
`loadedFromStore` records whether the store was re-read.  Both `findMatch` and
`findAllMatches` call this before scoring. -/
def getPatterns (now : Nat) (loadResult : List ExtractedPattern)
    (st : MatcherCache) : GetPatternsResult :=
  if 0 < st.cachedPatterns.length && now < st.cacheExpiry then
    { patterns := st.cachedPatterns, state := st, loadedFromStore := false }
  else
    { patterns := loadResult
      state := { cachedPatterns := loadResult, cacheExpiry := now + CACHE_TTL }
      loadedFromStore := true }

/-! ## `sync.ts`: `LearningSync.sync` -/

structure SyncResult where
  updated : Bool
  newPatterns : Option Nat := none
  errors : Option (List String) := none
deriving DecidableEq, Repr

/-- Outcomes of the git calls made by one `sync()` run: `rev-parse HEAD`
before, `pull origin main --ff-only`, `rev-parse HEAD` after, and the pattern
count read afterwards (`countPatterns` swallows its own errors and returns a
number).  An `Except.error` carries the thrown error's message. -/
structure GitPullEnv where
  revBefore : Except String String
  pullRes : Except String Unit
  revAfter : Except String String
  patternCount : Nat
deriving Repr

/-- Body of the `try` block of `sync()`: each step either yields a value or
throws, aborting the rest of the block with the thrown message. -/
def syncAttempt (env : GitPullEnv) : Except String SyncResult :=
  match env.revBefore with
  | .error m => .error m
  | .ok before =>
    match env.pullRes with
    | .error m => .error m
    | .ok _ =>
      match env.revAfter with
      | .error m => .error m
      | .ok after =>
        if before ≠ after then
          .ok { updated := true, newPatterns := some env.patternCount }
        else
          .ok { updated := false }

/-- The `catch` block of `sync()` (`error.message || 'Unknown error'`). -/
def handleSyncError (msg : String) : SyncResult :=
  if strContains msg "not found" || strContains msg "repository" then
    { updated := false, errors := some ["Repository not created yet"] }
  else
    { updated := false
      errors := some [if msg == "" then "Unknown error" else msg] }

/-- `LearningSync.sync`.  The success-path notification and
`dimag.reloadPatterns` command dispatch are fire-and-forget UI effects and are
not modelled as fallible. -/
def syncRun (gitInit : Bool) (env : GitPullEnv) : SyncResult :=
  if gitInit = false then
    { updated := false, errors := some ["Git not initialized"] }
  else
    match syncAttempt env with
    | .ok r => r
    | .error msg => handleSyncError msg

/-! ## `sync.ts`: `GitCommitter` -/

inductive AuthMethod
  | vscodeGit | backendApi | failed
deriving DecidableEq, Repr

structure CommitResult where
  success : Bool
  commitHash : Option String := none
  error : Option String := none
  authMethod : Option AuthMethod := none
deriving DecidableEq, Repr

/-- Outcomes of the effectful steps a `commitPatterns` run can perform:
pattern-file update (fs), `addConfig` for user name/email, `add('.')`,
`status()` (delivering `status.files.length`), `commit` (delivering the hash),
`push('origin','main')`; and for the fallback tier the bearer token available
after `getOrCreateAPIToken`'s secret lookup / interactive prompt, plus the
backend call's outcome (a non-OK HTTP response surfaces as the thrown
`Backend API error: …` message). -/
structure CommitEnv where
  updateFilesRes : Except String Unit
  configRes : Except String Unit
  stageRes : Except String Unit
  statusRes : Except String Nat
  commitRes : Except String String
  pushRes : Except String Unit
  apiToken : Option String
  backendRes : Except String String
deriving Repr

/-- Body of the `try` block of `commitWithVSCodeGit` (the push has its own
inner catch): each step either yields a value or throws, aborting the rest of
the block with the thrown message. -/
def vscodeGitAttempt (env : CommitEnv) : Except String CommitResult :=
  match env.updateFilesRes with
  | .error m => .error m
  | .ok _ =>
    match env.configRes with
    | .error m => .error m
    | .ok _ =>
      match env.stageRes with
      | .error m => .error m
      | .ok _ =>
        match env.statusRes with
        | .error m => .error m
        | .ok fileCount =>
          if fileCount = 0 then
            .ok { success := false
                  error := some "No changes to commit"
                  authMethod := some .vscodeGit }
          else
            match env.commitRes with
            | .error m => .error m
            | .ok hash =>
              match env.pushRes with
              | .ok _ =>
                .ok { success := true
                      commitHash := some hash
                      authMethod := some .vscodeGit }
              | .error pushMsg =>
                .ok { success := false
                      error := some ("Commit succeeded but push failed: " ++ pushMsg)
                      authMethod := some .vscodeGit }

/-- `GitCommitter.commitWithVSCodeGit`. -/
def commitWithVSCodeGit (gitInit : Bool) (env : CommitEnv) : CommitResult :=
  if gitInit = false then
    { success := false, error := some "Git not initialized", authMethod := some .failed }
  else
    match vscodeGitAttempt env with
    | .ok r => r
    | .error msg =>
      { success := false, error := some msg, authMethod := some .vscodeGit }

/-- `GitCommitter.commitWithBackendAPI`. -/
def commitWithBackendAPI (env : CommitEnv) : CommitResult :=
  match env.apiToken with
  | none =>
    { success := false
      error := some "No API token available. Please sign in to Dimag."
      authMethod := some .backendApi }
  | some _ =>
    match env.backendRes with
    | .ok hash =>
      { success := true, commitHash := some hash, authMethod := some .backendApi }
    | .error msg =>
      { success := false, error := some msg, authMethod := some .backendApi }

/-- `GitCommitter.commitPatterns`.  The returned boolean records whether the
Tier 2 backend path was attempted. -/
def commitPatterns (gitInit : Bool) (env : CommitEnv) : CommitResult × Bool :=
  if gitInit = false then
    ({ success := false
       error := some "Git not initialized. Please sync with dimag-brain repository first."
       authMethod := some .failed }, false)
  else
    let r1 := commitWithVSCodeGit gitInit env
    if r1.success then (r1, false)
    else (commitWithBackendAPI env, true)

/-! ## `sync.ts`: the Committer's merge step -/

structure StoreMetadata where
  lastUpdated : String
  totalPatterns : Nat
  version : String
deriving DecidableEq, Repr

structure PatternStore where
  patterns : List ExtractedPattern
  metadata : StoreMetadata
deriving DecidableEq, Repr

/-- Pure content of `GitCommitter.updatePatternFiles`: the duplicate-avoidance
id set is computed once from the pre-merge store, then each incoming pattern
whose id is not in that set is appended; `totalPatterns` and `lastUpdated` are
recomputed afterwards. -/
def mergePatterns (store : PatternStore) (incoming : List ExtractedPattern)
    (now : String) : PatternStore :=
  let existingIds := store.patterns.map (fun p => p.id)
  let merged := incoming.foldl
    (fun acc p => if existingIds.contains p.id then acc else acc ++ [p])
    store.patterns
  { patterns := merged
    metadata :=
      { lastUpdated := now
        totalPatterns := merged.length
        version := store.metadata.version } }

/-! ## Concrete instances used by witnesses and counterexamples -/

def clk : Clock := { isoNow := "2026-01-01T00:00:00.000Z", base36Now := "zzz" }

/-- A rejected suggestion, as `captureRejection` records it. -/
def rej : LearningEvent :=
  { type := .REJECTION
    timestamp := "t"
    context := { projectType := some "p" }
    aiAction := { type := "SUGGESTION", suggestion := "s", confidence := 6/10 }
    userAction := { type := .REJECTED }
    outcome := some { success := false } }

/-- An approved suggestion, as `captureApproval` records it. -/
def appr : LearningEvent :=
  { type := .APPROVAL
    timestamp := "t"
    context := { projectType := some "web" }
    aiAction := { type := "SUGGESTION", suggestion := "use X", confidence := 8/10 }
    userAction := { type := .APPROVED }
    outcome := some { success := true } }

def cfgAuto : CaptureConfig :=
  { learningEnabled := true, autoCommit := true, userAcceptsPrompt := false }

/-- The pattern `extractPatterns clk [appr, appr]` produces. -/
def pA : ExtractedPattern :=
  { id := "web_unknown__zzz"
    category := "techStack"
    pattern :=
      { context := { projectType := some "web", technologies := [], problemType := none }
        solution :=
          { approach := none
            averageConfidence := 4/5
            suggestions := ["use X", "use X"]
            requiredTechnologies := none }
        confidence := 1 }
    metadata := { createdAt := "2026-01-01T00:00:00.000Z", usageCount := 2, successRate := 1 } }

/-- A stored pattern whose context carries only a technology set. -/
def pR : ExtractedPattern :=
  { id := "react-only"
    category := "techStack"
    pattern :=
      { context := { technologies := ["React"] }
        solution := { averageConfidence := 1 }
        confidence := 1 }
    metadata := { createdAt := "t", usageCount := 2, successRate := 1 } }

/-- A live context identical to `pR`'s stored context. -/
def ctxR : EventContext := { technologies := some ["React"] }

/-- A stored pattern whose context carries a project type and a problem type. -/
def pW : ExtractedPattern :=
  { id := "web-deploy"
    category := "deployment"
    pattern :=
      { context := { projectType := some "web", problemType := some "deploy" }
        solution := { averageConfidence := 1 }
        confidence := 1 }
    metadata := { createdAt := "t", usageCount := 2, successRate := 1 } }

/-- A live context identical to `pW`'s stored context. -/
def ctxW : EventContext := { projectType := some "web", problemType := some "deploy" }

def emptyStore : PatternStore :=
  { patterns := []
    metadata := { lastUpdated := "t0", totalPatterns := 0, version := "1.0.0" } }

/-- Two distinct incoming patterns sharing the id `x`. -/
def dupA : ExtractedPattern :=
  { id := "x"
    category := "techStack"
    pattern := { context := {}, solution := {}, confidence := 1/2 }
    metadata := { createdAt := "t1", usageCount := 2, successRate := 1/2 } }

def dupB : ExtractedPattern :=
  { id := "x"
    category := "debugging"
    pattern := { context := {}, solution := {}, confidence := 3/4 }
    metadata := { createdAt := "t2", usageCount := 3, successRate := 3/4 } }

/-- Two distinct incoming patterns sharing the id `y`. -/
def dupC : ExtractedPattern :=
  { id := "y"
    category := "techStack"
    pattern := { context := {}, solution := {}, confidence := 1/2 }
    metadata := { createdAt := "t1", usageCount := 2, successRate := 1/2 } }

def dupD : ExtractedPattern :=
  { id := "y"
    category := "performance"
    pattern := { context := {}, solution := {}, confidence := 1 }
    metadata := { createdAt := "t2", usageCount := 2, successRate := 1 } }

/-- A commit-run environment where staging succeeds but the working tree has
no changes (`status.files.length === 0`); push itself would succeed. -/
def envEmptyDiff : CommitEnv :=
  { updateFilesRes := .ok ()
    configRes := .ok ()
    stageRes := .ok ()
    statusRes := .ok 0
    commitRes := .ok "abc123"
    pushRes := .ok ()
    apiToken := some "tok"
    backendRes := .ok "backend456" }

/-- A sync run where the fast-forward pull advances HEAD. -/
def envAdvanced : GitPullEnv :=
  { revBefore := .ok "r1", pullRes := .ok (), revAfter := .ok "r2", patternCount := 3 }

/-- A sync run whose pull dies on the network. -/
def envNetworkDown : GitPullEnv :=
  { revBefore := .ok "r1"
    pullRes := .error "fatal: unable to access remote"
    revAfter := .ok "r1"
    patternCount := 0 }

def stEmptyCache : MatcherCache := { cachedPatterns := [], cacheExpiry := 5000 }

def stWarmCache : MatcherCache := { cachedPatterns := [pR], cacheExpiry := 5000 }

/-! ## Helper lemmas -/

theorem foldl_appendIfNew (c : ExtractedPattern → Bool) :
    ∀ (l init : List ExtractedPattern),
      l.foldl (fun acc p => if c p then acc else acc ++ [p]) init
        = init ++ l.filter (fun p => !c p) := by
  intro l
  induction l with
  | nil => intro init; simp
  | cons x xs ih =>
    intro init
    simp only [List.foldl_cons, List.filter_cons]
    by_cases h : c x
    · simp [h, ih init]
    · simp [h, ih (init ++ [x])]

/-- Closed form of the merge loop: the pre-merge store followed by the
incoming patterns whose ids are not among the pre-merge store's ids. -/
theorem mergePatterns_patterns (store : PatternStore)
    (incoming : List ExtractedPattern) (now : String) :
    (mergePatterns store incoming now).patterns
      = store.patterns
          ++ incoming.filter
              (fun p => !(store.patterns.map (fun q => q.id)).contains p.id) := by
  unfold mergePatterns
  exact foldl_appendIfNew _ incoming store.patterns

theorem mergePatterns_total (store : PatternStore)
    (incoming : List ExtractedPattern) (now : String) :
    (mergePatterns store incoming now).metadata.totalPatterns
      = (mergePatterns store incoming now).patterns.length := rfl

/-! ## Claim theorems -/

/-- C1: the claim (and spec Scenario E) says a batch with two patterns sharing
one fresh id merges to a store with exactly one pattern of that id.  The code
computes its duplicate-avoidance id set once, from the pre-merge store only,
so it appends both: evaluating `updatePatternFiles`' merge on an empty store
and the batch `[dupA, dupB]` (both with id `x`) yields two patterns with id
`x`, contradicting the source's own `avoid duplicates` comment and the spec. -/
theorem c1_intra_batch_duplicate_ids_both_appended :
    emptyStore.patterns = []
      ∧ dupA.id = "x" ∧ dupB.id = "x" ∧ dupA ≠ dupB
      ∧ ((mergePatterns emptyStore [dupA, dupB] "t3").patterns.filter
          (fun p => p.id == "x")).length = 2 := by
  decide

/-- C5 counterexample: the claim quantifies over every incoming batch, but for
a batch whose two patterns share the fresh id `y` the merged store's ids are
not pairwise distinct, so the uniqueness invariant is not preserved. -/
theorem c5_counterexample_duplicate_batch :
    ((emptyStore.patterns.map (fun p => p.id)).Nodup
        ∧ emptyStore.metadata.totalPatterns = emptyStore.patterns.length)
      ∧ ¬ (((mergePatterns emptyStore [dupC, dupD] "t3").patterns.map
            (fun p => p.id)).Nodup) := by
  decide

/-- C5 (amended): for every valid store and every incoming batch whose own ids
are pairwise distinct, the Committer's merge step again yields
`metadata.totalPatterns = patterns.length` and pairwise-distinct ids. -/
theorem c5_merge_preserves_invariant (store : PatternStore)
    (incoming : List ExtractedPattern) (now : String)
    (h1 : (store.patterns.map (fun p => p.id)).Nodup)
    (_h2 : store.metadata.totalPatterns = store.patterns.length)
    (h3 : (incoming.map (fun p => p.id)).Nodup) :
    ((mergePatterns store incoming now).patterns.map (fun p => p.id)).Nodup
      ∧ (mergePatterns store incoming now).metadata.totalPatterns
          = (mergePatterns store incoming now).patterns.length := by
  refine ⟨?_, mergePatterns_total store incoming now⟩
  rw [mergePatterns_patterns, List.map_append]
  rw [List.nodup_append]
  refine ⟨h1, ?_, ?_⟩
  · exact h3.sublist ((List.filter_sublist incoming).map _)
  · intro a ha hb
    obtain ⟨p, hpmem, hpid⟩ := List.mem_map.mp hb
    have hpf := List.mem_filter.mp hpmem
    have hcontains : (store.patterns.map (fun q => q.id)).contains p.id = false := by
      cases hh : (store.patterns.map (fun q => q.id)).contains p.id with
      | false => rfl
      | true => rw [hh] at hpf; simp at hpf
    have : p.id ∉ store.patterns.map (fun q => q.id) := by
      simpa using hcontains
    exact this (hpid ▸ ha)

/-- C5 witness: the amended theorem applied to a concrete valid store and a
concrete duplicate-free batch. -/
theorem c5_merge_preserves_invariant_witness :
    ((mergePatterns { patterns := [pR], metadata := { lastUpdated := "t0", totalPatterns := 1, version := "1.0.0" } } [pW, pA] "t3").patterns.map (fun p => p.id)).Nodup
      ∧ (mergePatterns { patterns := [pR], metadata := { lastUpdated := "t0", totalPatterns := 1, version := "1.0.0" } } [pW, pA] "t3").metadata.totalPatterns
          = (mergePatterns { patterns := [pR], metadata := { lastUpdated := "t0", totalPatterns := 1, version := "1.0.0" } } [pW, pA] "t3").patterns.length :=
  c5_merge_preserves_invariant
    { patterns := [pR], metadata := { lastUpdated := "t0", totalPatterns := 1, version := "1.0.0" } }
    [pW, pA] "t3" (by decide) (by decide) (by decide)

/-- C4 counterexample: with pattern technologies `{a, b}` and live
technologies `{b, c}` the matcher's technology component is
`1/max(2,2) × 0.4 = 0.2`, while the spec's Jaccard overlap gives
`1/3 × 0.4 = 2/15`; the two differ. -/
theorem c4_counterexample_not_jaccard :
    techScore ["a", "b"] (some ["b", "c"]) = 1/5
      ∧ jaccardOverlap ["a", "b"] ["b", "c"] * (4/10) = 2/15
      ∧ (1/5 : ℚ) ≠ 2/15 :=
  of_decide_eq_true (by with_unfolding_all rfl)

/-- C4 (amended): for every pattern and live context that both carry
technology sets, the technology component of the raw score equals the
intersection size divided by the LARGER of the two set sizes (not the union
size), multiplied by 0.4. -/
theorem c4_tech_component_formula (pt ct : List String) :
    techScore pt (some ct)
      = (interCount pt ct : ℚ) / (((max (setSize pt) (setSize ct)) : ℕ) : ℚ)
          * (4/10) := by
  unfold techScore
  simp only
  split
  · rfl
  · next h =>
    have h0 : (0:ℚ) ≤ (interCount pt ct : ℚ) / (((max (setSize pt) (setSize ct)) : ℕ) : ℚ) :=
      div_nonneg (Nat.cast_nonneg _) (Nat.cast_nonneg _)
    have hz : (interCount pt ct : ℚ) / (((max (setSize pt) (setSize ct)) : ℕ) : ℚ) = 0 :=
      le_antisymm (not_lt.mp h) h0
    rw [hz, zero_mul]

/-- C3 counterexample: in a run where staging succeeds but the diff is empty,
Tier 1 fails before its push step (`No changes to commit`), yet
`commitPatterns` still attempts the Tier 2 backend path — the claim says the
fallback fires only on push failure. -/
theorem c3_counterexample_fallback_on_empty_diff :
    (commitWithVSCodeGit true envEmptyDiff).success = false
      ∧ (commitWithVSCodeGit true envEmptyDiff).error = some "No changes to commit"
      ∧ envEmptyDiff.pushRes = .ok ()
      ∧ (commitPatterns true envEmptyDiff).2 = true := by
  refine ⟨rfl, rfl, rfl, rfl⟩

/-- C3 (amended): the Tier 2 bearer-token path is attempted exactly when the
repository is initialized and Tier 1 failed at ANY step (empty diff, local
commit failure, or push failure); it is never attempted when Tier 1
succeeds. -/
theorem c3_fallback_iff_tier1_failed (gitInit : Bool) (env : CommitEnv) :
    (commitPatterns gitInit env).2
      = (gitInit && !(commitWithVSCodeGit gitInit env).success) := by
  cases gitInit with
  | false => rfl
  | true =>
    unfold commitPatterns
    simp only [Bool.true_and, if_neg (by simp : ¬(true = false))]
    by_cases h : (commitWithVSCodeGit true env).success
    · simp [h]
    · simp [h]

theorem handleSyncError_updated (msg : String) :
    (handleSyncError msg).updated = false := by
  unfold handleSyncError
  split <;> rfl

/-- C6: `sync()` reports `updated = true` exactly when git is initialized, all
three git calls succeed, and the revision pointer recorded before the
fast-forward-only pull differs from the one after it; and a pull that throws
(network failure, remote not found) always yields a result with
`updated = false` instead of propagating the error. -/
theorem c6_sync_updated_iff (gitInit : Bool) (env : GitPullEnv) :
    ((syncRun gitInit env).updated = true ↔
      (gitInit = true ∧ ∃ b a, env.revBefore = .ok b ∧ env.pullRes = .ok ()
        ∧ env.revAfter = .ok a ∧ b ≠ a))
      ∧ (∀ msg, env.pullRes = .error msg → (syncRun gitInit env).updated = false) := by
  rcases env with ⟨rb, pr, ra, pc⟩
  cases gitInit with
  | false =>
    refine ⟨?_, fun msg _ => rfl⟩
    simp [syncRun]
  | true =>
    cases rb with
    | error m =>
      refine ⟨?_, fun msg hmsg => ?_⟩
      · simp [syncRun, syncAttempt, handleSyncError_updated, Except.bind]
      · simp [syncRun, syncAttempt, Except.bind, handleSyncError_updated]
    | ok b =>
      cases pr with
      | error m =>
        refine ⟨?_, fun msg hmsg => ?_⟩
        · simp [syncRun, syncAttempt, Except.bind, handleSyncError_updated]
        · simp [syncRun, syncAttempt, Except.bind, handleSyncError_updated]
      | ok u =>
        cases u
        cases ra with
        | error m =>
          refine ⟨?_, fun msg hmsg => by simp at hmsg⟩
          simp [syncRun, syncAttempt, Except.bind, handleSyncError_updated]
        | ok a =>
          refine ⟨?_, fun msg hmsg => by simp at hmsg⟩
          by_cases hba : b = a
          · subst hba
            simp [syncRun, syncAttempt, Except.bind]
          · simp [syncRun, syncAttempt, Except.bind, hba]

/-- C6 witness: a pull that advances the pointer reports `updated = true`; a
pull that dies on the network reports `updated = false` without throwing. -/
theorem c6_sync_updated_iff_witness :
    (syncRun true envAdvanced).updated = true
      ∧ (syncRun true envNetworkDown).updated = false :=
  ⟨(c6_sync_updated_iff true envAdvanced).1.mpr
      ⟨rfl, "r1", "r2", rfl, rfl, rfl, by decide⟩,
    (c6_sync_updated_iff true envNetworkDown).2 "fatal: unable to access remote" rfl⟩

/-- C10: if the cached pattern list is empty, `getPatterns` re-reads the store
regardless of the TTL (so `findMatch`/`findAllMatches`, which call it first,
re-read after a zero-pattern load); a non-empty cached list is served from the
cache, without touching the store, whenever `now` is before the expiry
timestamp. -/
theorem c10_empty_cache_reloads (now : Nat) (load : List ExtractedPattern)
    (st : MatcherCache) :
    (st.cachedPatterns = [] →
      (getPatterns now load st).loadedFromStore = true
        ∧ (getPatterns now load st).patterns = load)
      ∧ (st.cachedPatterns ≠ [] → now < st.cacheExpiry →
          (getPatterns now load st).loadedFromStore = false
            ∧ (getPatterns now load st).patterns = st.cachedPatterns) := by
  constructor
  · intro h
    simp [getPatterns, h]
  · intro h1 h2
    have hl : 0 < st.cachedPatterns.length := List.length_pos.mpr h1
    simp [getPatterns, hl, h2]

/-- C10 witness: a cold (empty) cache re-reads the store even though the TTL
has not expired; a warm cache within its TTL is served without a store read. -/
theorem c10_empty_cache_reloads_witness :
    ((getPatterns 100 [pW] stEmptyCache).loadedFromStore = true
        ∧ (getPatterns 100 [pW] stEmptyCache).patterns = [pW])
      ∧ ((getPatterns 100 [pW] stWarmCache).loadedFromStore = false
        ∧ (getPatterns 100 [pW] stWarmCache).patterns = stWarmCache.cachedPatterns) :=
  ⟨(c10_empty_cache_reloads 100 [pW] stEmptyCache).1 rfl,
    (c10_empty_cache_reloads 100 [pW] stWarmCache).2 (by decide) (by decide)⟩

/-- C2 counterexample: a queue of ten rejection events triggers an extraction
attempt that produces zero patterns, and the queue is NOT cleared — the claim
(and the spec's §9 note) says the clear is unconditional on the attempt. -/
theorem c2_counterexample_zero_pattern_attempt_keeps_queue :
    (captureDecision cfgAuto clk (List.replicate 9 rej) rej).2 = true
      ∧ (captureDecision cfgAuto clk (List.replicate 9 rej) rej).1
          = List.replicate 10 rej
      ∧ List.replicate 10 rej ≠ ([] : List LearningEvent) :=
  of_decide_eq_true (by with_unfolding_all rfl)

/-- C2 (amended): after an extraction attempt that gets past the consent gate,
the queue is empty iff the attempt produced at least one pattern; a
zero-pattern attempt leaves the queue unchanged. -/
theorem c2_amended_clear_iff_patterns (cfg : CaptureConfig) (clock : Clock)
    (q : List LearningEvent)
    (hgate : cfg.autoCommit = true ∨ cfg.userAcceptsPrompt = true) :
    (extractPatterns clock q = [] → (triggerCommit cfg clock q).1 = q)
      ∧ (extractPatterns clock q ≠ [] → (triggerCommit cfg clock q).1 = []) := by
  constructor
  · intro hE
    rcases hgate with h | h <;> simp [triggerCommit, h, hE]
  · intro hE
    cases hE2 : extractPatterns clock q with
    | nil => exact absurd hE2 hE
    | cons x xs =>
      rcases hgate with h | h <;> simp [triggerCommit, h, hE2]

/-- C2 witness: the amended theorem applied to a zero-pattern queue (ten
rejections, queue kept) and to a two-approval queue (one pattern, queue
cleared). -/
theorem c2_amended_clear_iff_patterns_witness :
    (triggerCommit cfgAuto clk (List.replicate 10 rej)).1 = List.replicate 10 rej
      ∧ (triggerCommit cfgAuto clk [appr, appr]).1 = [] :=
  ⟨(c2_amended_clear_iff_patterns cfgAuto clk (List.replicate 10 rej)
        (Or.inl rfl)).1 (of_decide_eq_true (by with_unfolding_all rfl)),
    (c2_amended_clear_iff_patterns cfgAuto clk [appr, appr]
        (Or.inl rfl)).2 (of_decide_eq_true (by with_unfolding_all rfl))⟩

/-- C8 counterexample: eleven rejection events captured from an empty queue
cross the size threshold once and the queue is never emptied, yet the
Extractor runs twice (at the tenth and the eleventh capture) — the claim says
exactly once per crossing. -/
theorem c8_counterexample_two_attempts_one_crossing :
    (runCaptures cfgAuto clk (List.replicate 11 rej)).2 = 2
      ∧ (runCaptures cfgAuto clk (List.replicate 11 rej)).1.length = 11 :=
  of_decide_eq_true (by with_unfolding_all rfl)

/-- C8 (amended): a capture triggers an extraction attempt iff learning is
enabled, the post-append queue length is at least the threshold (10), and
auto-commit is on or the user accepts the prompt — so attempts recur at every
capture while a zero-pattern queue stays at or above the threshold, rather
than exactly once per crossing. -/
theorem c8_attempt_condition (cfg : CaptureConfig) (clock : Clock)
    (q : List LearningEvent) (e : LearningEvent) :
    (captureDecision cfg clock q e).2
      = (cfg.learningEnabled
          && decide (COMMIT_THRESHOLD ≤ q.length + 1)
          && (cfg.autoCommit || cfg.userAcceptsPrompt)) := by
  rcases cfg with ⟨le, ac, up⟩
  cases le with
  | false => simp [captureDecision]
  | true =>
    by_cases h10 : COMMIT_THRESHOLD ≤ q.length + 1
    · cases hE : (extractPatterns clock (q ++ [e])).isEmpty <;>
        cases ac <;> cases up <;>
          simp [captureDecision, triggerCommit, h10, hE]
    · simp [captureDecision, h10]

theorem mem_of_mem_addToGroups (gs : List (List LearningEvent))
    (e : LearningEvent) {g : List LearningEvent} {x : LearningEvent}
    (hg : g ∈ addToGroups gs e) (hx : x ∈ g) :
    (∃ g' ∈ gs, x ∈ g') ∨ x = e := by
  induction gs with
  | nil =>
    simp only [addToGroups, List.mem_singleton] at hg
    subst hg
    simp only [List.mem_singleton] at hx
    exact Or.inr hx
  | cons g0 rest ih =>
    cases g0 with
    | nil =>
      simp only [addToGroups, List.head?_nil, List.mem_cons] at hg
      rcases hg with hg | hg
      · subst hg; simp at hx
      · rcases ih hg with ⟨g', hg', hx'⟩ | hxe
        · exact Or.inl ⟨g', List.mem_cons_of_mem _ hg', hx'⟩
        · exact Or.inr hxe
    | cons f g0t =>
      simp only [addToGroups, List.head?_cons] at hg
      by_cases hsim : isSimilarContext f.context e.context
      · rw [if_pos hsim] at hg
        rcases List.mem_cons.mp hg with hg | hg
        · subst hg
          rcases List.mem_append.mp hx with hx | hx
          · exact Or.inl ⟨f :: g0t, List.mem_cons_self _ _, hx⟩
          · exact Or.inr (List.mem_singleton.mp hx)
        · exact Or.inl ⟨g, List.mem_cons_of_mem _ hg, hx⟩
      · rw [if_neg hsim] at hg
        rcases List.mem_cons.mp hg with hg | hg
        · subst hg
          exact Or.inl ⟨f :: g0t, List.mem_cons_self _ _, hx⟩
        · rcases ih hg with ⟨g', hg', hx'⟩ | hxe
          · exact Or.inl ⟨g', List.mem_cons_of_mem _ hg', hx'⟩
          · exact Or.inr hxe

theorem mem_of_mem_foldl_addToGroups :
    ∀ (es : List LearningEvent) (gs : List (List LearningEvent))
      {g : List LearningEvent} {x : LearningEvent},
      g ∈ es.foldl addToGroups gs → x ∈ g →
      (∃ g' ∈ gs, x ∈ g') ∨ x ∈ es := by
  intro es
  induction es with
  | nil =>
    intro gs g x hg hx
    exact Or.inl ⟨g, hg, hx⟩
  | cons e es ih =>
    intro gs g x hg hx
    rcases ih (addToGroups gs e) hg hx with ⟨g', hg', hx'⟩ | hxe
    · rcases mem_of_mem_addToGroups gs e hg' hx' with h | h
      · exact Or.inl h
      · exact Or.inr (by simp [h])
    · exact Or.inr (List.mem_cons_of_mem _ hxe)

/-- Every member of a similarity group came from the queue. -/
theorem mem_queue_of_mem_group {q : List LearningEvent}
    {g : List LearningEvent} {x : LearningEvent}
    (hg : g ∈ groupSimilarEvents q) (hx : x ∈ g) : x ∈ q := by
  rcases mem_of_mem_foldl_addToGroups q [] hg hx with ⟨g', hg', _⟩ | h
  · simp at hg'
  · exact h

theorem listSum_le_length (l : List ℚ) (h : ∀ x ∈ l, x ≤ 1) :
    l.sum ≤ (l.length : ℚ) := by
  induction l with
  | nil => simp
  | cons a t ih =>
    simp only [List.sum_cons, List.length_cons]
    have ha := h a (by simp)
    have ht := ih (fun x hx => h x (by simp [hx]))
    push_cast
    linarith

theorem natDivQ_bounds (a b : ℕ) (hab : a ≤ b) :
    0 ≤ (a : ℚ) / (b : ℚ) ∧ (a : ℚ) / (b : ℚ) ≤ 1 := by
  refine ⟨div_nonneg (Nat.cast_nonneg a) (Nat.cast_nonneg b), ?_⟩
  rcases Nat.eq_zero_or_pos b with hb | hb
  · subst hb
    simp
  · have hb' : (0:ℚ) < b := by exact_mod_cast hb
    exact (div_le_one hb').mpr (by exact_mod_cast hab)

theorem avgConfidence_bounds (actions : List AiAction) (hne : actions ≠ [])
    (hb : ∀ a ∈ actions, 0 ≤ a.confidence ∧ a.confidence ≤ 1) :
    0 ≤ (extractCommonSolution actions).averageConfidence
      ∧ (extractCommonSolution actions).averageConfidence ≤ 1 := by
  have hAvg : (extractCommonSolution actions).averageConfidence
      = (actions.map (fun a => a.confidence)).sum / (actions.length : ℚ) := rfl
  have hlen : 0 < actions.length := List.length_pos.mpr hne
  have hlenq : (0:ℚ) < (actions.length : ℚ) := by exact_mod_cast hlen
  have hmap : ∀ x ∈ actions.map (fun a => a.confidence), 0 ≤ x ∧ x ≤ 1 := by
    intro x hx
    obtain ⟨a, ha, rfl⟩ := List.mem_map.mp hx
    exact hb a ha
  have hsum0 : 0 ≤ (actions.map (fun a => a.confidence)).sum :=
    List.sum_nonneg (fun x hx => (hmap x hx).1)
  have hsum1 : (actions.map (fun a => a.confidence)).sum ≤ (actions.length : ℚ) := by
    have := listSum_le_length _ (fun x hx => (hmap x hx).2)
    simpa using this
  rw [hAvg]
  exact ⟨div_nonneg hsum0 (le_of_lt hlenq), (div_le_one hlenq).mpr hsum1⟩

theorem createPattern_bounds (clock : Clock) (g : List LearningEvent)
    (p : ExtractedPattern)
    (hb : ∀ e ∈ g, 0 ≤ e.aiAction.confidence ∧ e.aiAction.confidence ≤ 1)
    (hc : createPattern clock g = some p) :
    (0 ≤ p.pattern.confidence ∧ p.pattern.confidence ≤ 1)
      ∧ (0 ≤ p.metadata.successRate ∧ p.metadata.successRate ≤ 1)
      ∧ (0 ≤ p.pattern.solution.averageConfidence
          ∧ p.pattern.solution.averageConfidence ≤ 1) := by
  simp only [createPattern] at hc
  split at hc
  · exact absurd hc (by simp)
  · next h0 =>
    have happrne : g.filter isApproved ≠ [] := by
      intro hnil
      apply h0
      rw [hnil]
      rfl
    have hrate := natDivQ_bounds
      (g.filter (fun e => outcomeNotFailed e && isApproved e)).length
      g.length (List.length_filter_le _ _)
    have hactsne : (g.filter isApproved).map (fun e => e.aiAction) ≠ [] := by
      simp [happrne]
    have hactsb : ∀ a ∈ (g.filter isApproved).map (fun e => e.aiAction),
        0 ≤ a.confidence ∧ a.confidence ≤ 1 := by
      intro a ha
      obtain ⟨e, he, rfl⟩ := List.mem_map.mp ha
      exact hb e (List.mem_filter.mp he).1
    have havg := avgConfidence_bounds _ hactsne hactsb
    rw [← Option.some.inj hc]
    exact ⟨hrate, hrate, havg⟩

/-- C7: for every queue whose events' `aiAction.confidence` values all lie in
`[0, 1]`, every pattern produced by extraction has `pattern.confidence`,
`metadata.successRate` and the solution's average confidence in `[0, 1]`,
whatever mix of approved, rejected or modified events the groups contain. -/
theorem c7_extraction_range (clock : Clock) (q : List LearningEvent)
    (hb : ∀ e ∈ q, 0 ≤ e.aiAction.confidence ∧ e.aiAction.confidence ≤ 1) :
    ∀ p ∈ extractPatterns clock q,
      (0 ≤ p.pattern.confidence ∧ p.pattern.confidence ≤ 1)
        ∧ (0 ≤ p.metadata.successRate ∧ p.metadata.successRate ≤ 1)
        ∧ (0 ≤ p.pattern.solution.averageConfidence
            ∧ p.pattern.solution.averageConfidence ≤ 1) := by
  intro p hp
  unfold extractPatterns at hp
  obtain ⟨g, hg, hfg⟩ := List.mem_filterMap.mp hp
  split at hfg
  · exact absurd hfg (by simp)
  · exact createPattern_bounds clock g p
      (fun e he => hb e (mem_queue_of_mem_group hg he)) hfg

/-- C7 witness: the range theorem applied to a concrete two-approval queue and
the concrete pattern it extracts. -/
theorem c7_extraction_range_witness :
    (∀ e ∈ [appr, appr], 0 ≤ e.aiAction.confidence ∧ e.aiAction.confidence ≤ 1)
      ∧ ((0 ≤ pA.pattern.confidence ∧ pA.pattern.confidence ≤ 1)
        ∧ (0 ≤ pA.metadata.successRate ∧ pA.metadata.successRate ≤ 1)
        ∧ (0 ≤ pA.pattern.solution.averageConfidence
            ∧ pA.pattern.solution.averageConfidence ≤ 1)) :=
  ⟨of_decide_eq_true (by with_unfolding_all rfl),
    c7_extraction_range clk [appr, appr]
      (of_decide_eq_true (by with_unfolding_all rfl)) pA
      (of_decide_eq_true (by with_unfolding_all rfl))⟩

theorem techScore_nonneg (ptechs : List String) (ctechs : Option (List String)) :
    0 ≤ techScore ptechs ctechs := by
  unfold techScore
  cases ctechs with
  | none => exact le_refl 0
  | some ct =>
    simp only
    split
    · next h => exact mul_nonneg (le_of_lt h) (by norm_num)
    · exact le_refl 0

theorem areSimilarProblemTypes_self (s : String) :
    areSimilarProblemTypes s s = true := by
  unfold areSimilarProblemTypes
  simp

theorem insertMatchDesc_length (m : PatternMatch) (l : List PatternMatch) :
    (insertMatchDesc m l).length = l.length + 1 := by
  induction l with
  | nil => rfl
  | cons x xs ih =>
    unfold insertMatchDesc
    split
    · simp
    · simp [ih]

theorem sortMatchesDesc_length (l : List PatternMatch) :
    (sortMatchesDesc l).length = l.length := by
  induction l with
  | nil => rfl
  | cons x xs ih =>
    unfold sortMatchesDesc
    rw [insertMatchDesc_length, ih]
    rfl

/-- C9 counterexample: a stored pattern whose context (a bare technology set)
is identical to the live project context and whose historical confidence is
1.0 scores `0.4×0.7 + 1×0.3 = 0.58`, which does NOT exceed the 0.6 auto-reuse
bar, so `findMatch` over a store holding it returns `null`. -/
theorem c9_counterexample_tech_only_exact_match :
    pR.pattern.context.projectType = ctxR.projectType
      ∧ some pR.pattern.context.technologies = ctxR.technologies
      ∧ pR.pattern.context.problemType = ctxR.problemType
      ∧ pR.pattern.confidence = 1
      ∧ (scorePattern pR "deploy" ctxR).confidence = 29/50
      ∧ ¬ (scorePattern pR "deploy" ctxR).confidence > 6/10
      ∧ findMatch [pR] "deploy" ctxR = none :=
  of_decide_eq_true (by with_unfolding_all rfl)

/-- C9 (amended): a stored pattern whose context agrees with the live project
context on a non-empty `projectType` AND a non-empty `problemType`, and whose
historical confidence is 1.0, blends to
`rawScore×0.7 + 0.3 ≥ 0.5×0.7 + 0.3 = 0.65 > 0.6`, so `findMatch` on any
store containing it does not return `null`.  (An exact match on technologies
alone is not sufficient — see the counterexample.) -/
theorem c9_amended_project_and_problem_match (p : ExtractedPattern)
    (ctx : EventContext) (intent : String) (store : List ExtractedPattern)
    (hmem : p ∈ store)
    (hpt : p.pattern.context.projectType = ctx.projectType)
    (hptT : strTruthy ctx.projectType = true)
    (hpb : p.pattern.context.problemType = ctx.problemType)
    (hpbT : strTruthy ctx.problemType = true)
    (hconf : p.pattern.confidence = 1) :
    (scorePattern p intent ctx).confidence > 6/10
      ∧ findMatch store intent ctx ≠ none := by
  have hbeq : ((1:ℚ) == 0) = false := by with_unfolding_all rfl
  have hgt : (scorePattern p intent ctx).confidence > 6/10 := by
    unfold scorePattern
    simp only [hpt, hpb, hconf, hptT, hbeq, areSimilarProblemTypes_self,
      beq_self_eq_true, Bool.and_self, Bool.and_true, Bool.true_and,
      if_true, Bool.false_eq_true, if_false]
    have hT := techScore_nonneg p.pattern.context.technologies ctx.technologies
    rw [gt_iff_lt, lt_min_iff]
    refine ⟨?_, by norm_num⟩
    rw [if_pos hpbT]
    split <;> nlinarith [hT]
  refine ⟨hgt, ?_⟩
  unfold findMatch
  have hne : store ≠ [] := List.ne_nil_of_mem hmem
  rw [if_neg (by simp [hne])]
  have hm1 : scorePattern p intent ctx
      ∈ store.map (fun q => scorePattern q intent ctx) :=
    List.mem_map_of_mem _ hmem
  have hm2 : scorePattern p intent ctx
      ∈ (store.map (fun q => scorePattern q intent ctx)).filter
          (fun m => decide (m.confidence > 6/10)) :=
    List.mem_filter.mpr ⟨hm1, decide_eq_true hgt⟩
  have hlen : 0 < (sortMatchesDesc
      ((store.map (fun q => scorePattern q intent ctx)).filter
        (fun m => decide (m.confidence > 6/10)))).length := by
    rw [sortMatchesDesc_length]
    exact List.length_pos.mpr (List.ne_nil_of_mem hm2)
  intro hnone
  rw [List.head?_eq_none_iff] at hnone
  rw [hnone] at hlen
  simp at hlen

/-- C9 witness: the amended theorem applied to a concrete stored pattern whose
project type and problem type match the live context exactly. -/
theorem c9_amended_project_and_problem_match_witness :
    (scorePattern pW "ship it" ctxW).confidence > 6/10
      ∧ findMatch [pW] "ship it" ctxW ≠ none :=
  c9_amended_project_and_problem_match pW ctxW "ship it" [pW]
    (List.mem_singleton.mpr rfl) rfl
    (of_decide_eq_true (by with_unfolding_all rfl)) rfl
    (of_decide_eq_true (by with_unfolding_all rfl)) rfl

end Dimag
